import Mathlib

/-!
CFM (Controle Financeiro Moderno): ledger aggregation and reporting.

Shallow embedding of the aggregation and reporting code of `src/app.js`.

Modelling conventions
* `dados.transacoes` is a `List Transacao`, `dados.categorias` a `Categorias` record; the
  global `dados` object is passed explicitly.
* Amounts (`t.valor`) are integers (an amount in the smallest currency unit). Floating-point
  rounding and `NaN` are outside the model.
* `t.data` holds a calendar date `YYYY-MM-DD`; it is the record `Data`. `new Date(..)` is
  modelled by the timestamp `Data.getTime` (milliseconds of the midnight of that day).
* A plain JS object used as a map is an association list in property-creation order
  (`Objeto`); `Object.keys` and `Object.values` follow the own-property order of the
  language: array-index keys first, ascending, then the other keys in creation order.
  Keys are assumed not to collide with names inherited from `Object.prototype`.
* `String.prototype.toLowerCase` is modelled by `toLowerCase` (the ASCII letters), `includes` by the
  contiguous-sublist test on the characters.
* A thrown `TypeError` is the `Except.error` result.
-/

namespace CFM

/-! ## Data model -/

/-- The field `tipo` of a transaction: the string `entrada` or `saida`. -/
inductive Tipo where
  | entrada
  | saida
deriving DecidableEq, Repr

/-- A calendar date as held in `t.data` (`YYYY-MM-DD`): year, month `1..12`, day. -/
structure Data where
  ano : Nat
  mes : Nat
  dia : Nat
deriving DecidableEq, Repr

/-- A transaction id: `Date.now()` (a number) for rows created in the page, the value
delivered by the API for loaded rows. -/
inductive Ident where
  | num (n : Nat)
  | str (s : String)
deriving DecidableEq, Repr

/-- A row of `dados.transacoes`. `categoria` is a category id or `null` (`none`). -/
structure Transacao where
  id : Ident
  tipo : Tipo
  descricao : String
  valor : Int
  data : Data
  categoria : Option String
  timestamp : String
deriving DecidableEq, Repr

/-- An entry of `dados.categorias.entrada` or `dados.categorias.saida`. -/
structure Categoria where
  id : String
  nome : String
  icone : String
  customizada : Bool
deriving DecidableEq, Repr

/-- The registry `dados.categorias`, partitioned by kind. -/
structure Categorias where
  entrada : List Categoria
  saida : List Categoria
deriving DecidableEq, Repr

/-- The partition `dados.categorias[tipo]`. -/
def Categorias.doTipo (c : Categorias) : Tipo → List Categoria
  | Tipo.entrada => c.entrada
  | Tipo.saida => c.saida

/-- Errors raised by the language runtime. -/
inductive ErroJS where
  | typeError
deriving DecidableEq, Repr

instance {α : Type} [DecidableEq α] : DecidableEq (Except ErroJS α) := fun a b =>
  match a, b with
  | Except.ok x, Except.ok y =>
    if h : x = y then isTrue (by rw [h]) else isFalse (fun e => h (Except.ok.inj e))
  | Except.error x, Except.error y =>
    if h : x = y then isTrue (by rw [h]) else isFalse (fun e => h (Except.error.inj e))
  | Except.ok _, Except.error _ => isFalse (fun e => Except.noConfusion e)
  | Except.error _, Except.ok _ => isFalse (fun e => Except.noConfusion e)

/-! ## Calendar dates and timestamps -/

/-- Leap year of the proleptic Gregorian calendar. -/
def bissexto (a : Nat) : Bool :=
  a % 4 == 0 && (a % 100 != 0 || a % 400 == 0)

/-- Number of days of month `m` of year `a`. -/
def diasNoMes (a m : Nat) : Nat :=
  if m = 2 then (if bissexto a then 29 else 28)
  else if m = 4 ∨ m = 6 ∨ m = 9 ∨ m = 11 then 30
  else 31

/-- A well-formed calendar date (what an `input type=date` or a `DATE` column holds). -/
def Data.valida (d : Data) : Prop :=
  1 ≤ d.mes ∧ d.mes ≤ 12 ∧ 1 ≤ d.dia ∧ d.dia ≤ diasNoMes d.ano d.mes

instance (d : Data) : Decidable d.valida := by
  unfold Data.valida; infer_instance

/-- Number of days of year `a`. -/
def diasNoAno (a : Nat) : Nat := if bissexto a then 366 else 365

/-- Days in the years before year `a` (counted from year 0). -/
def diasAntesDoAno (a : Nat) : Nat :=
  365 * a + (a + 3) / 4 - (a + 99) / 100 + (a + 399) / 400

/-- Days of year `a` in the months before month `m`. -/
def diasAntesDoMes (a m : Nat) : Nat :=
  match m with
  | 0 => 0
  | k + 1 => ((List.range k).map (fun i => diasNoMes a (i + 1))).sum

/-- Day number of a date, counted from 0000-01-01. -/
def Data.ordinal (d : Data) : Nat :=
  diasAntesDoAno d.ano + diasAntesDoMes d.ano d.mes + d.dia

/-- The value of `new Date(d)`: milliseconds since 1970-01-01 of the midnight of `d`. -/
def Data.getTime (d : Data) : Int :=
  86400000 * ((d.ordinal : Int) - 719529)

/-- `getFullYear()` of `new Date(d + T00:00:00)`. -/
def Data.getFullYear (d : Data) : Nat := d.ano

/-- `getMonth()` of `new Date(d + T00:00:00)`: the month index counted from 0. -/
def Data.getMonth (d : Data) : Nat := d.mes - 1

/-- Calendar order on dates: lexicographic on year, month, day. -/
def Data.le (a b : Data) : Prop :=
  a.ano < b.ano ∨ (a.ano = b.ano ∧ (a.mes < b.mes ∨ (a.mes = b.mes ∧ a.dia ≤ b.dia)))

instance (a b : Data) : Decidable (Data.le a b) := by
  unfold Data.le; infer_instance

/-- Strict calendar order on dates. -/
def Data.lt (a b : Data) : Prop :=
  a.ano < b.ano ∨ (a.ano = b.ano ∧ (a.mes < b.mes ∨ (a.mes = b.mes ∧ a.dia < b.dia)))

instance (a b : Data) : Decidable (Data.lt a b) := by
  unfold Data.lt; infer_instance

/-- Two decimal digits, zero padded. -/
def doisDigitos (n : Nat) : List Char :=
  [Nat.digitChar (n / 10 % 10), Nat.digitChar (n % 10)]

/-- `formatarData(data)`: `toLocaleDateString` for `pt-BR`, that is `dd/mm/yyyy`. -/
def formatarData (d : Data) : String :=
  String.mk (doisDigitos d.dia ++ '/' :: doisDigitos d.mes ++ '/' :: Nat.toDigits 10 d.ano)

/-! ## Plain objects used as maps -/

/-- A plain object with values of type `α`: its own properties in creation order. -/
abbrev Objeto (α : Type) := List (String × α)

/-- The read `o[k]`: `none` is `undefined`. -/
def Objeto.get {α : Type} : Objeto α → String → Option α
  | [], _ => none
  | (k', v) :: r, k => if k' = k then some v else Objeto.get r k

/-- The write `o[k] = v`: an existing property keeps its place, a new one is created last. -/
def Objeto.set {α : Type} : Objeto α → String → α → Objeto α
  | [], k, v => [(k, v)]
  | (k', v') :: r, k, v => if k' = k then (k, v) :: r else (k', v') :: Objeto.set r k v

/-- The number written by a list of decimal digits. -/
def lerDecimal (cs : List Char) : Nat :=
  cs.foldl (fun acc c => 10 * acc + (c.toNat - 48)) 0

/-- The array index a property key stands for, if it is one: a canonical decimal numeral
below `2^32 - 1`. -/
def indiceDeArray (k : String) : Option Nat :=
  if k.data ≠ [] ∧ k.data.all Char.isDigit = true ∧ (k.data.head? ≠ some '0' ∨ k.data.length = 1)
      ∧ lerDecimal k.data < 4294967295 then
    some (lerDecimal k.data)
  else none

/-- Own properties in the order of `Object.keys`, `Object.values` and `for-in`: array-index
keys ascending, then the other keys in creation order. -/
def Objeto.entradas {α : Type} (o : Objeto α) : List (String × α) :=
  (o.filter (fun p => (indiceDeArray p.1).isSome)).insertionSort
      (fun p q => (indiceDeArray p.1).getD 0 ≤ (indiceDeArray q.1).getD 0)
    ++ o.filter (fun p => !(indiceDeArray p.1).isSome)

/-- The value of `Object.keys(o)`. -/
def Objeto.keys {α : Type} (o : Objeto α) : List String := o.entradas.map Prod.fst

/-- The value of `Object.values(o)`. -/
def Objeto.values {α : Type} (o : Objeto α) : List α := o.entradas.map Prod.snd

/-! ## Strings -/

/-- The value of `s.toLowerCase()`. -/
def toLowerCase (s : String) : String := String.mk (s.data.map Char.toLower)

/-- The test `s.includes(t)`. -/
def includes (s t : String) : Bool := decide (t.data <:+: s.data)

/-- The value of `valor.toString()` for an integer amount. -/
def valorToString (v : Int) : String := toString v

/-! ## Category registry -/

/-- `obterNomeCategoria(id, tipo)`: `icone nome` of the category with that id in the partition
of `tipo`, else `id` itself (which may be `null`). -/
def obterNomeCategoria (cats : Categorias) (id : Option String) (tipo : Tipo) : Option String :=
  match (cats.doTipo tipo).find? (fun c => decide (some c.id = id)) with
  | some categoria => some (categoria.icone ++ " " ++ categoria.nome)
  | none => id

/-! ## Aggregation -/

/-- `calcularTotal(tipo, transacoes)`. -/
def calcularTotal (tipo : Tipo) (transacoes : List Transacao) : Int :=
  (transacoes.filter (fun t => decide (t.tipo = tipo))).foldl (fun sum t => sum + t.valor) 0

/-- The four figures `atualizarDashboard` writes to the cards. -/
structure Resumo where
  entradas : Int
  saidas : Int
  saldo : Int
  totalTransacoes : Nat
deriving DecidableEq, Repr

/-- The summary part of `atualizarDashboard`, over `dados.transacoes`. -/
def atualizarDashboard (transacoes : List Transacao) : Resumo :=
  let entradas := calcularTotal Tipo.entrada transacoes
  let saidas := calcularTotal Tipo.saida transacoes
  let saldo := entradas - saidas
  let totalTransacoes := transacoes.length
  { entradas := entradas, saidas := saidas, saldo := saldo, totalTransacoes := totalTransacoes }

/-- The value of `Number(valor) || 0` for a numeric amount. -/
def numberOuZero (valor : Int) : Int := if valor = 0 then 0 else valor

/-! ## Period filter -/

/-- The value of the `periodo` select; `outro` is any other string. -/
inductive Periodo where
  | mes
  | trimestre
  | ano
  | personalizado
  | outro
deriving DecidableEq, Repr

/-- `filtrarTransacoesPorPeriodo(transacoes, periodo)`. `hoje` is the value of `new Date()`,
`dataInicio` and `dataFim` are the values of the two date inputs (`none` when the input is
missing or empty). -/
def filtrarTransacoesPorPeriodo (transacoes : List Transacao) (periodo : Periodo) (hoje : Data)
    (dataInicio dataFim : Option Data) : List Transacao :=
  let ano := hoje.getFullYear
  let mes := hoje.getMonth
  if periodo = Periodo.personalizado then
    match dataInicio, dataFim with
    | some inicio, some fim =>
      transacoes.filter (fun t =>
        decide (t.data.getTime ≥ inicio.getTime) && decide (t.data.getTime ≤ fim.getTime))
    | _, _ => transacoes
  else
    transacoes.filter (fun t =>
      match periodo with
      | Periodo.mes => decide (t.data.getMonth = mes) && decide (t.data.getFullYear = ano)
      | Periodo.trimestre =>
        let trimestreAtual := mes / 3
        let trimestreTransacao := t.data.getMonth / 3
        decide (trimestreTransacao = trimestreAtual) && decide (t.data.getFullYear = ano)
      | Periodo.ano => decide (t.data.getFullYear = ano)
      | _ => true)

/-- The figures `atualizarRelatorio` computes: the three totals written to the summary and the
row count of its debug record. -/
structure Relatorio where
  entradas : Int
  saidas : Int
  saldo : Int
  transacoesFiltradas : Nat
deriving DecidableEq, Repr

/-- The summary part of `atualizarRelatorio`. -/
def atualizarRelatorio (transacoes : List Transacao) (periodo : Periodo) (hoje : Data)
    (dataInicio dataFim : Option Data) : Relatorio :=
  let transacoesFiltradas := filtrarTransacoesPorPeriodo transacoes periodo hoje dataInicio dataFim
  let entradas := (transacoesFiltradas.filter (fun t => decide (t.tipo = Tipo.entrada))).foldl
    (fun sum t => sum + numberOuZero t.valor) 0
  let saidas := (transacoesFiltradas.filter (fun t => decide (t.tipo = Tipo.saida))).foldl
    (fun sum t => sum + numberOuZero t.valor) 0
  let saldo := entradas - saidas
  { entradas := entradas, saidas := saidas, saldo := saldo,
    transacoesFiltradas := transacoesFiltradas.length }

/-! ## Charts -/

/-- The `labels` and the `data` of the single dataset handed to `new Chart`. -/
structure Grafico where
  labels : List String
  data : List Int
deriving DecidableEq, Repr

/-- A property key made from a category label: `null` becomes the string `null`. -/
def chaveDe (rotulo : Option String) : String := rotulo.getD "null"

/-- The body of the `forEach` of `atualizarGraficoCategorias`. -/
def passoCategoria (cats : Categorias) (porCategoria : Objeto Int) (t : Transacao) : Objeto Int :=
  let catNome := chaveDe (obterNomeCategoria cats t.categoria Tipo.saida)
  let anterior := match porCategoria.get catNome with
    | some v => if v = 0 then 0 else v
    | none => 0
  porCategoria.set catNome (anterior + t.valor)

/-- The object `porCategoria` built by `atualizarGraficoCategorias`. -/
def porCategoria (cats : Categorias) (transacoes : List Transacao) : Objeto Int :=
  (transacoes.filter (fun t => decide (t.tipo = Tipo.saida))).foldl (passoCategoria cats) []

/-- The transactions in the order of `sort((a, b) => new Date(a.data) - new Date(b.data))`
(the sort is stable). -/
def ordenadas (transacoes : List Transacao) : List Transacao :=
  transacoes.insertionSort (fun a b => a.data.getTime - b.data.getTime ≤ 0)

/-- The body of the `forEach` of `atualizarGraficoEvolucao`, on the pair
`(pontos, saldoAcumulado)`. -/
def passoEvolucao (st : Objeto Int × Int) (t : Transacao) : Objeto Int × Int :=
  let data := formatarData t.data
  let pontos := match st.1.get data with
    | some v => if v = 0 then st.1.set data st.2 else st.1
    | none => st.1.set data st.2
  let saldoAcumulado := st.2 + (if t.tipo = Tipo.entrada then t.valor else -t.valor)
  (pontos.set data saldoAcumulado, saldoAcumulado)

/-- The object `pontos` built by `atualizarGraficoEvolucao`. -/
def pontosEvolucao (transacoes : List Transacao) : Objeto Int :=
  ((ordenadas transacoes).foldl passoEvolucao ([], 0)).1

/-- `atualizarGraficoEvolucao(transacoes)`: the chart it builds, `none` when it shows the
empty-period message instead. -/
def atualizarGraficoEvolucao (transacoes : List Transacao) : Option Grafico :=
  if transacoes.length = 0 then none
  else
    let pontos := pontosEvolucao transacoes
    some { labels := pontos.keys, data := pontos.values }

/-- The signed amount of a row: `+valor` for `entrada`, `-valor` for `saida`. -/
def valorComSinal (t : Transacao) : Int := if t.tipo = Tipo.entrada then t.valor else -t.valor

/-- The balance at the end of day `d`: the sum of the signed amounts of the rows of `S` dated
on or before `d` (calendar order). -/
def saldoAte (S : List Transacao) (d : Data) : Int :=
  ((S.filter (fun t => decide (Data.le t.data d))).map valorComSinal).sum

/-- The scenario of the specification: income 100 and expense 30 on 2024-01-05, expense 20 on
2024-02-01. -/
def cenario : List Transacao :=
  [⟨Ident.num 1, Tipo.entrada, "salario", 100, ⟨2024, 1, 5⟩, some "c1", ""⟩,
   ⟨Ident.num 2, Tipo.saida, "mercado", 30, ⟨2024, 1, 5⟩, some "c2", ""⟩,
   ⟨Ident.num 3, Tipo.saida, "padaria", 20, ⟨2024, 2, 1⟩, some "c2", ""⟩]

/-! ## Search filter -/

/-- `Array.prototype.filter` with a callback that may throw. -/
def filterExcept {α : Type} (p : α → Except ErroJS Bool) : List α → Except ErroJS (List α)
  | [] => Except.ok []
  | x :: xs =>
    match p x with
    | Except.error e => Except.error e
    | Except.ok b =>
      match filterExcept p xs with
      | Except.error e => Except.error e
      | Except.ok r => Except.ok (if b then x :: r else r)

/-- The callback of the `filter` of `filtrarTransacoes`. Calling `toLowerCase` on `null`
throws a `TypeError`. -/
def casaBusca (cats : Categorias) (termoBusca : String) (t : Transacao) : Except ErroJS Bool :=
  let descricao := toLowerCase t.descricao
  let valor := valorToString t.valor
  match obterNomeCategoria cats t.categoria t.tipo with
  | none => Except.error ErroJS.typeError
  | some nome =>
    let categoria := toLowerCase nome
    Except.ok (includes descricao termoBusca || includes valor termoBusca
      || includes categoria termoBusca)

/-- `filtrarTransacoes(transacoes, termoBusca)`. -/
def filtrarTransacoes (cats : Categorias) (transacoes : List Transacao) (termoBusca : String) :
    Except ErroJS (List Transacao) :=
  if termoBusca = "" then Except.ok transacoes
  else filterExcept (casaBusca cats termoBusca) transacoes

/-- A blank search term: not empty and made of whitespace only. -/
def emBranco (termo : String) : Bool :=
  !termo.data.isEmpty && termo.data.all Char.isWhitespace

/-! ## Category deletion -/

/-- The registry with the partition of `tipo` replaced by `lista`
(`dados.categorias[tipo] = lista`). -/
def Categorias.comTipo (c : Categorias) (tipo : Tipo) (lista : List Categoria) : Categorias :=
  match tipo with
  | Tipo.entrada => { c with entrada := lista }
  | Tipo.saida => { c with saida := lista }

/-- The deletion guard of `removerCategoria`: the category is found in the partition of `tipo`,
it is custom, and no transaction has its id as `categoria`. -/
def podeRemover (cats : Categorias) (transacoes : List Transacao) (id : String) (tipo : Tipo) :
    Bool :=
  match (cats.doTipo tipo).find? (fun c => decide (c.id = id)) with
  | none => false
  | some categoria =>
    if !categoria.customizada then false
    else
      let temTransacoes := transacoes.any (fun t => decide (t.categoria = some id))
      if temTransacoes then false else true

/-- `removerCategoria(id, tipo)`: the registry it leaves. `confirmou` is the answer to the
`confirm` dialog. -/
def removerCategoria (cats : Categorias) (transacoes : List Transacao) (id : String) (tipo : Tipo)
    (confirmou : Bool) : Categorias :=
  match (cats.doTipo tipo).find? (fun c => decide (c.id = id)) with
  | none => cats
  | some categoria =>
    if !categoria.customizada then cats
    else
      let temTransacoes := transacoes.any (fun t => decide (t.categoria = some id))
      if temTransacoes then cats
      else if confirmou then
        cats.comTipo tipo ((cats.doTipo tipo).filter (fun c => decide (c.id ≠ id)))
      else cats

/-! ## Store mutators -/

/-- The outcome of a round trip to the backing store: the promise resolves or rejects. -/
inductive Resposta where
  | sucesso
  | falha
deriving DecidableEq, Repr

/-- A request sent to the backing store. -/
inductive Chamada where
  | criarTransacao (t : Transacao)
  | removerTransacao (id : Ident)
deriving DecidableEq, Repr

/-- The test `sessao && sessao.email` on the value of `getSessionData()`: `none` is no session,
`some email` a session with that email. -/
def autenticado (sessao : Option String) : Bool :=
  match sessao with
  | none => false
  | some email => decide (email ≠ "")

/-- What a mutator leaves: the list `dados.transacoes`, the requests it sent to the backing
store, and whether it showed an error toast. -/
structure Efeito where
  transacoes : List Transacao
  chamadas : List Chamada
  toastErro : Bool
deriving DecidableEq, Repr

/-- The values `adicionarTransacao` reads from the form: `valor` is the result of `parseFloat`
(`none` is `NaN`), `data` the value of the date input (`none` is the empty string). -/
structure FormularioTransacao where
  descricao : String
  valor : Option Int
  data : Option Data
  categoria : String
deriving DecidableEq, Repr

/-- `adicionarTransacao(tipo)`. `agora` is the value of `Date.now()`, `carimbo` the value of
`new Date().toISOString()`, `resposta` the outcome of `apiCreateTransacao` if it is called. -/
def adicionarTransacao (transacoes : List Transacao) (tipo : Tipo) (form : FormularioTransacao)
    (agora : Nat) (carimbo : String) (sessao : Option String) (resposta : Resposta) : Efeito :=
  match form.valor, form.data with
  | some valor, some data =>
    if form.descricao = "" ∨ valor = 0 ∨ form.categoria = "" then
      { transacoes := transacoes, chamadas := [], toastErro := true }
    else
      let transacao : Transacao :=
        { id := Ident.num agora, tipo := tipo, descricao := form.descricao, valor := valor,
          data := data, categoria := some form.categoria, timestamp := carimbo }
      if autenticado sessao then
        { transacoes := transacoes ++ [transacao],
          chamadas := [Chamada.criarTransacao transacao],
          toastErro := decide (resposta = Resposta.falha) }
      else
        { transacoes := transacoes ++ [transacao], chamadas := [], toastErro := false }
  | _, _ => { transacoes := transacoes, chamadas := [], toastErro := true }

/-- `deletarTransacao(id)`. `confirmou` is the answer to the `confirm` dialog, `resposta` the
outcome of `apiDeleteTransacao` if it is called. -/
def deletarTransacao (transacoes : List Transacao) (id : Ident) (confirmou : Bool)
    (sessao : Option String) (resposta : Resposta) : Efeito :=
  if !confirmou then { transacoes := transacoes, chamadas := [], toastErro := false }
  else if !autenticado sessao then
    { transacoes := transacoes, chamadas := [], toastErro := true }
  else
    match resposta with
    | Resposta.sucesso =>
      { transacoes := transacoes.filter (fun t => decide (t.id ≠ id)),
        chamadas := [Chamada.removerTransacao id], toastErro := false }
    | Resposta.falha =>
      { transacoes := transacoes, chamadas := [Chamada.removerTransacao id], toastErro := true }

/-- The values the submit handler of `editarTransacao` reads from the modal form. Its three
inputs are `required`, so the handler runs with a text, a number and a date. -/
structure FormularioEdicao where
  descricao : String
  valor : Int
  data : Data
deriving DecidableEq, Repr

/-- The edit submitted through `editarTransacao(id)`: the row found by
`find(t => t.id === id)` gets the three values of the form; nothing happens when no row is
found. The remote update that follows does not touch the list. -/
def editarTransacao (transacoes : List Transacao) (id : Ident) (form : FormularioEdicao) :
    List Transacao :=
  match transacoes with
  | [] => []
  | t :: resto =>
    if t.id = id then
      { t with descricao := form.descricao, valor := form.valor, data := form.data } :: resto
    else t :: editarTransacao resto id form

/-! ## Lists on screen -/

/-- The sequence `transacoesFiltradas` that `atualizarListaEspecifica(tipo, idLista)` renders:
the rows of the kind, sorted with `(a, b) => new Date(b.data) - new Date(a.data)` (stable), then
filtered by the search term of the kind. -/
def atualizarListaEspecifica (cats : Categorias) (transacoes : List Transacao) (tipo : Tipo)
    (termoBusca : String) : Except ErroJS (List Transacao) :=
  let transacoesFiltradas :=
    (transacoes.filter (fun t => decide (t.tipo = tipo))).insertionSort
      (fun a b => b.data.getTime - a.data.getTime ≤ 0)
  filtrarTransacoes cats transacoesFiltradas termoBusca

/-- The three totals `exportarPDF` prints. -/
structure ResumoPDF where
  entradas : Int
  saidas : Int
  saldo : Int
deriving DecidableEq, Repr

/-- The summary part of `exportarPDF()`: `none` when there is no row in the period. -/
def exportarPDF (transacoes : List Transacao) (periodo : Periodo) (hoje : Data)
    (dataInicio dataFim : Option Data) : Option ResumoPDF :=
  let transacoesFiltradas := filtrarTransacoesPorPeriodo transacoes periodo hoje dataInicio dataFim
  if transacoesFiltradas.length = 0 then none
  else
    let entradas := calcularTotal Tipo.entrada transacoesFiltradas
    let saidas := calcularTotal Tipo.saida transacoesFiltradas
    let saldo := entradas - saidas
    some { entradas := entradas, saidas := saidas, saldo := saldo }

/-! ## Percentage of income -/

/-- The quotient `a / b` over exact numbers; `none` records a division by zero. -/
def dividir (a b : ℚ) : Option ℚ := if b = 0 then none else some (a / b)

/-- The number written by `x.toFixed(1)`: the multiple of one tenth nearest to `x`, the one of
larger magnitude on a tie. -/
def toFixed1 (x : ℚ) : ℚ :=
  if x < 0 then -((⌊(-x) * 10 + 1 / 2⌋ : Int) : ℚ) / 10
  else ((⌊x * 10 + 1 / 2⌋ : Int) : ℚ) / 10

/-- The value `percentGasto` of `atualizarDashboard`:
`entradas > 0 ? ((saidas / entradas) * 100).toFixed(1) : 0`. -/
def percentGasto (saidas entradas : Int) : Option ℚ :=
  if entradas > 0 then (dividir saidas entradas).map (fun q => toFixed1 (q * 100))
  else some 0

/-! ## Adding a category -/

/-- The value of `s.replace(/\s+/g, '-')` on the characters of `s`: each run of whitespace
becomes one hyphen. `emEspaco` tells that the previous character was whitespace. -/
def hifenizar (emEspaco : Bool) : List Char → List Char
  | [] => []
  | c :: r =>
    if c.isWhitespace then
      (if emEspaco then hifenizar true r else '-' :: hifenizar true r)
    else c :: hifenizar false r

/-- The id `nome.toLowerCase().replace(/\s+/g, '-') + '-' + Date.now()`. -/
def idDaCategoria (nome : String) (agora : Nat) : String :=
  String.mk (hifenizar false (toLowerCase nome).data ++ '-' :: Nat.toDigits 10 agora)

/-- The toast `adicionarCategoria` ends with. -/
inductive MensagemCategoria where
  | preenchaTodosOsCampos
  | adicionadaComSucesso
  | salvaLocalmenteFalhaAoSincronizar
deriving DecidableEq, Repr

/-- What `adicionarCategoria` leaves: the registry, whether `apiCreateCategoria` was called, and
the toast. -/
structure EfeitoCategoria where
  categorias : Categorias
  chamouApi : Bool
  mensagem : MensagemCategoria
deriving DecidableEq, Repr

/-- `adicionarCategoria()`. `nome` and `tipo` are the values of the form (`none` is the empty
choice), `agora` the value of `Date.now()`, `resposta` the outcome of `apiCreateCategoria` if it
is called. -/
def adicionarCategoria (cats : Categorias) (nome : String) (tipo : Option Tipo) (agora : Nat)
    (sessao : Option String) (resposta : Resposta) : EfeitoCategoria :=
  match tipo with
  | none =>
    { categorias := cats, chamouApi := false,
      mensagem := MensagemCategoria.preenchaTodosOsCampos }
  | some tipo =>
    if nome = "" then
      { categorias := cats, chamouApi := false,
        mensagem := MensagemCategoria.preenchaTodosOsCampos }
    else
      let novaCategoria : Categoria :=
        { id := idDaCategoria nome agora, nome := nome, icone := "📌", customizada := true }
      if autenticado sessao && decide (resposta = Resposta.falha) then
        { categorias := cats, chamouApi := true,
          mensagem := MensagemCategoria.salvaLocalmenteFalhaAoSincronizar }
      else
        { categorias := cats.comTipo tipo (cats.doTipo tipo ++ [novaCategoria]),
          chamouApi := autenticado sessao,
          mensagem := MensagemCategoria.adicionadaComSucesso }

end CFM

/-! # Theorems -/

namespace CFM

/-! ## Calendar lemmas -/

theorem bissexto_iff (a : Nat) :
    bissexto a = true ↔ a % 4 = 0 ∧ (a % 100 ≠ 0 ∨ a % 400 = 0) := by
  simp [bissexto]

theorem diasAntesDoAno_succ (a : Nat) :
    diasAntesDoAno (a + 1) = diasAntesDoAno a + diasNoAno a := by
  have e4 : (a + 1 + 3) / 4 = (a + 3) / 4 + (if a % 4 = 0 then 1 else 0) := by
    split <;> omega
  have e100 : (a + 1 + 99) / 100 = (a + 99) / 100 + (if a % 100 = 0 then 1 else 0) := by
    split <;> omega
  have e400 : (a + 1 + 399) / 400 = (a + 399) / 400 + (if a % 400 = 0 then 1 else 0) := by
    split <;> omega
  have l1 : (a + 99) / 100 ≤ (a + 3) / 4 := by omega
  have i1 : a % 400 = 0 → a % 100 = 0 := by omega
  have i2 : a % 100 = 0 → a % 4 = 0 := by omega
  have hb := bissexto_iff a
  unfold diasAntesDoAno diasNoAno
  rw [e4, e100, e400]
  generalize (a + 3) / 4 = x at *
  generalize (a + 99) / 100 = y at *
  generalize (a + 399) / 400 = z at *
  by_cases h : bissexto a = true
  · rw [if_pos h]
    obtain ⟨h4, h5⟩ := hb.1 h
    rw [if_pos h4]
    by_cases h100 : a % 100 = 0
    · have h400 : a % 400 = 0 := by
        rcases h5 with h5 | h5
        · exact absurd h100 h5
        · exact h5
      rw [if_pos h100, if_pos h400]; omega
    · have h400 : ¬ a % 400 = 0 := fun h => h100 (i1 h)
      rw [if_neg h100, if_neg h400]; omega
  · rw [if_neg h]
    have hn := mt hb.2 h
    by_cases h4 : a % 4 = 0
    · have h100 : a % 100 = 0 := by
        by_contra hc; exact hn ⟨h4, Or.inl hc⟩
      have h400 : ¬ a % 400 = 0 := fun hc => hn ⟨h4, Or.inr hc⟩
      rw [if_pos h4, if_pos h100, if_neg h400]; omega
    · have h100 : ¬ a % 100 = 0 := fun hc => h4 (i2 hc)
      have h400 : ¬ a % 400 = 0 := fun hc => h100 (i1 hc)
      rw [if_neg h4, if_neg h100, if_neg h400]; omega

theorem diasAntesDoAno_mono {a b : Nat} (h : a ≤ b) : diasAntesDoAno a ≤ diasAntesDoAno b := by
  induction h with
  | refl => exact Nat.le_refl _
  | step _ ih => rw [diasAntesDoAno_succ]; omega

theorem diasAntesDoMes_succ (a m : Nat) (hm : 1 ≤ m) :
    diasAntesDoMes a (m + 1) = diasAntesDoMes a m + diasNoMes a m := by
  obtain ⟨k, rfl⟩ : ∃ k, m = k + 1 := ⟨m - 1, by omega⟩
  simp [diasAntesDoMes, List.range_succ]

theorem diasAntesDoMes_mono (a : Nat) {m n : Nat} (hm : 1 ≤ m) (h : m ≤ n) :
    diasAntesDoMes a m ≤ diasAntesDoMes a n := by
  induction h with
  | refl => exact Nat.le_refl _
  | @step k hk ih =>
    have : 1 ≤ k := Nat.le_trans hm hk
    rw [diasAntesDoMes_succ a k this]; omega

theorem diasAntesDoMes_treze (a : Nat) : diasAntesDoMes a 13 = diasNoAno a := by
  unfold diasAntesDoMes diasNoAno
  by_cases h : bissexto a = true <;> simp [List.range_succ, diasNoMes, h]

theorem Data.ext_campos {a b : Data} (h1 : a.ano = b.ano) (h2 : a.mes = b.mes)
    (h3 : a.dia = b.dia) : a = b := by
  cases a; cases b; simp_all

theorem Data.le_iff_lt_or_eq (a b : Data) : Data.le a b ↔ Data.lt a b ∨ a = b := by
  constructor
  · intro h
    by_cases e : a = b
    · exact Or.inr e
    · left
      unfold Data.le at h
      unfold Data.lt
      rcases h with h | ⟨h1, h | ⟨h2, h3⟩⟩
      · exact Or.inl h
      · exact Or.inr ⟨h1, Or.inl h⟩
      · refine Or.inr ⟨h1, Or.inr ⟨h2, ?_⟩⟩
        rcases Nat.lt_or_ge a.dia b.dia with h4 | h4
        · exact h4
        · exact absurd (Data.ext_campos h1 h2 (Nat.le_antisymm h3 h4)) e
  · rintro (h | rfl)
    · unfold Data.lt at h
      unfold Data.le
      omega
    · unfold Data.le
      omega

theorem Data.lt_of_not_le {a b : Data} (h : ¬ Data.le a b) : Data.lt b a := by
  unfold Data.le at h
  unfold Data.lt
  omega

theorem Data.le_refl (a : Data) : Data.le a a := by
  unfold Data.le; omega

theorem Data.le_trans {a b c : Data} (h1 : Data.le a b) (h2 : Data.le b c) : Data.le a c := by
  unfold Data.le at *
  omega

theorem Data.lt_of_lt_of_le {a b c : Data} (h1 : Data.lt a b) (h2 : Data.le b c) :
    Data.lt a c := by
  unfold Data.le at h2
  unfold Data.lt at *
  omega

theorem Data.ordinal_lt_of_lt {a b : Data} (ha : a.valida) (hb : b.valida)
    (h : Data.lt a b) : a.ordinal < b.ordinal := by
  obtain ⟨ha1, ha2, _, ha4⟩ := ha
  obtain ⟨hb1, _, hb3, _⟩ := hb
  have hfim : diasAntesDoMes a.ano a.mes + a.dia ≤ diasAntesDoMes a.ano (a.mes + 1) := by
    rw [diasAntesDoMes_succ a.ano a.mes ha1]; omega
  unfold Data.ordinal
  rcases h with h | ⟨h1, h | ⟨h2, h3⟩⟩
  · have h13 : diasAntesDoMes a.ano (a.mes + 1) ≤ diasAntesDoMes a.ano 13 :=
      diasAntesDoMes_mono a.ano (by omega) (by omega)
    rw [diasAntesDoMes_treze] at h13
    have hs : diasAntesDoAno (a.ano + 1) ≤ diasAntesDoAno b.ano := diasAntesDoAno_mono h
    rw [diasAntesDoAno_succ] at hs
    omega
  · have hm : diasAntesDoMes a.ano (a.mes + 1) ≤ diasAntesDoMes a.ano b.mes :=
      diasAntesDoMes_mono a.ano (by omega) h
    rw [← h1]
    omega
  · rw [← h1, ← h2]
    omega

theorem Data.getTime_le_iff {a b : Data} (ha : a.valida) (hb : b.valida) :
    a.getTime ≤ b.getTime ↔ Data.le a b := by
  unfold Data.getTime
  constructor
  · intro h
    by_contra hn
    have := Data.ordinal_lt_of_lt hb ha (Data.lt_of_not_le hn)
    omega
  · intro h
    rcases (Data.le_iff_lt_or_eq a b).1 h with h | h
    · have := Data.ordinal_lt_of_lt ha hb h
      omega
    · rw [h]

/-! ## Totals and summary -/

/-- C1: the summary of `atualizarDashboard` over a list `S` has income
`calcularTotal entrada S`, expense `calcularTotal saida S`, balance income minus expense and
count the length of `S`; `calcularTotal` of the empty list is 0. -/
theorem C1_resumo_dashboard (S : List Transacao) :
    (atualizarDashboard S).entradas = calcularTotal Tipo.entrada S
    ∧ (atualizarDashboard S).saidas = calcularTotal Tipo.saida S
    ∧ (atualizarDashboard S).saldo = (atualizarDashboard S).entradas - (atualizarDashboard S).saidas
    ∧ calcularTotal Tipo.entrada S - calcularTotal Tipo.saida S = (atualizarDashboard S).saldo
    ∧ (atualizarDashboard S).totalTransacoes = S.length
    ∧ ∀ tipo, calcularTotal tipo [] = 0 := by
  refine ⟨rfl, rfl, rfl, rfl, rfl, ?_⟩
  intro tipo
  rfl

/-! ## Period filter -/

/-- C6: for the periods `mes`, `trimestre` and `ano` the period filter keeps, in input order,
exactly the rows whose date has the month and year of today, the quarter (month index from 0,
divided by 3) and year of today, or the year of today. -/
theorem C6_filtro_periodo (S : List Transacao) (hoje : Data) (dataInicio dataFim : Option Data)
    (hh : hoje.valida) (hS : ∀ t ∈ S, t.data.valida) :
    filtrarTransacoesPorPeriodo S Periodo.mes hoje dataInicio dataFim
        = S.filter (fun t => decide (t.data.mes = hoje.mes ∧ t.data.ano = hoje.ano))
    ∧ filtrarTransacoesPorPeriodo S Periodo.trimestre hoje dataInicio dataFim
        = S.filter (fun t =>
            decide ((t.data.mes - 1) / 3 = (hoje.mes - 1) / 3 ∧ t.data.ano = hoje.ano))
    ∧ filtrarTransacoesPorPeriodo S Periodo.ano hoje dataInicio dataFim
        = S.filter (fun t => decide (t.data.ano = hoje.ano)) := by
  refine ⟨?_, ?_, ?_⟩
  · simp only [filtrarTransacoesPorPeriodo, if_neg (by decide : ¬ Periodo.mes = Periodo.personalizado)]
    apply List.filter_congr
    intro t ht
    have h1 := (hS t ht).1
    have h2 := hh.1
    simp only [Data.getMonth, Data.getFullYear, ← Bool.decide_and]
    apply decide_eq_decide.2
    constructor
    · rintro ⟨a, b⟩; exact ⟨by omega, b⟩
    · rintro ⟨a, b⟩; exact ⟨by omega, b⟩
  · simp only [filtrarTransacoesPorPeriodo,
      if_neg (by decide : ¬ Periodo.trimestre = Periodo.personalizado)]
    apply List.filter_congr
    intro t _
    simp only [Data.getMonth, Data.getFullYear, ← Bool.decide_and]
  · simp only [filtrarTransacoesPorPeriodo,
      if_neg (by decide : ¬ Periodo.ano = Periodo.personalizado)]
    apply List.filter_congr
    intro t _
    simp only [Data.getFullYear]

/-- C6 (instance): a row of June 2024 and a row of March 2024 with today in June 2024. -/
theorem C6_filtro_periodo_witness :
    (Data.mk 2024 6 1).valida
    ∧ filtrarTransacoesPorPeriodo
        [⟨Ident.num 1, Tipo.saida, "a", 5, ⟨2024, 6, 30⟩, some "c", ""⟩,
         ⟨Ident.num 2, Tipo.saida, "b", 7, ⟨2024, 3, 31⟩, some "c", ""⟩]
        Periodo.mes ⟨2024, 6, 1⟩ none none
      = [⟨Ident.num 1, Tipo.saida, "a", 5, ⟨2024, 6, 30⟩, some "c", ""⟩] :=
  ⟨by decide,
   ((C6_filtro_periodo
      [⟨Ident.num 1, Tipo.saida, "a", 5, ⟨2024, 6, 30⟩, some "c", ""⟩,
       ⟨Ident.num 2, Tipo.saida, "b", 7, ⟨2024, 3, 31⟩, some "c", ""⟩]
      ⟨2024, 6, 1⟩ none none (by decide) (by decide)).1).trans (by decide)⟩

/-- C7: with period `personalizado` and both bounds present the period filter keeps, in input
order, exactly the rows with `inicio <= data <= fim` in calendar order; a row dated exactly
`inicio` or exactly `fim` is kept (when `inicio <= fim`). -/
theorem C7_filtro_personalizado (S : List Transacao) (hoje inicio fim : Data)
    (hi : inicio.valida) (hf : fim.valida) (hS : ∀ t ∈ S, t.data.valida) :
    filtrarTransacoesPorPeriodo S Periodo.personalizado hoje (some inicio) (some fim)
        = S.filter (fun t => decide (Data.le inicio t.data ∧ Data.le t.data fim))
    ∧ (Data.le inicio fim → ∀ t ∈ S, (t.data = inicio ∨ t.data = fim) →
        t ∈ filtrarTransacoesPorPeriodo S Periodo.personalizado hoje (some inicio) (some fim)) := by
  have h1 : filtrarTransacoesPorPeriodo S Periodo.personalizado hoje (some inicio) (some fim)
      = S.filter (fun t => decide (Data.le inicio t.data ∧ Data.le t.data fim)) := by
    simp only [filtrarTransacoesPorPeriodo, if_true]
    apply List.filter_congr
    intro t ht
    have hv := hS t ht
    rw [← Bool.decide_and]
    apply decide_eq_decide.2
    rw [ge_iff_le, Data.getTime_le_iff hi hv, Data.getTime_le_iff hv hf]
  refine ⟨h1, ?_⟩
  intro hle t ht hd
  rw [h1, List.mem_filter]
  refine ⟨ht, ?_⟩
  apply decide_eq_true
  rcases hd with hd | hd
  · rw [hd]; exact ⟨Data.le_refl _, hle⟩
  · rw [hd]; exact ⟨hle, Data.le_refl _⟩

/-- C7 (instance): bounds 2024-01-05 and 2024-02-01, rows dated on the bounds and after. -/
theorem C7_filtro_personalizado_witness :
    filtrarTransacoesPorPeriodo
        [⟨Ident.num 1, Tipo.saida, "a", 5, ⟨2024, 1, 5⟩, some "c", ""⟩,
         ⟨Ident.num 2, Tipo.saida, "b", 7, ⟨2024, 2, 2⟩, some "c", ""⟩,
         ⟨Ident.num 3, Tipo.entrada, "c", 9, ⟨2024, 2, 1⟩, some "c", ""⟩]
        Periodo.personalizado ⟨2024, 6, 1⟩ (some ⟨2024, 1, 5⟩) (some ⟨2024, 2, 1⟩)
      = [⟨Ident.num 1, Tipo.saida, "a", 5, ⟨2024, 1, 5⟩, some "c", ""⟩,
         ⟨Ident.num 3, Tipo.entrada, "c", 9, ⟨2024, 2, 1⟩, some "c", ""⟩] :=
  ((C7_filtro_personalizado
      [⟨Ident.num 1, Tipo.saida, "a", 5, ⟨2024, 1, 5⟩, some "c", ""⟩,
       ⟨Ident.num 2, Tipo.saida, "b", 7, ⟨2024, 2, 2⟩, some "c", ""⟩,
       ⟨Ident.num 3, Tipo.entrada, "c", 9, ⟨2024, 2, 1⟩, some "c", ""⟩]
      ⟨2024, 6, 1⟩ ⟨2024, 1, 5⟩ ⟨2024, 2, 1⟩ (by decide) (by decide) (by decide)).1).trans
    (by decide)

/-- C8: with period `personalizado` and the start bound, the end bound or both absent, the
period filter returns its input list unchanged. -/
theorem C8_personalizado_sem_limite (S : List Transacao) (hoje : Data)
    (dataInicio dataFim : Option Data) (h : dataInicio = none ∨ dataFim = none) :
    filtrarTransacoesPorPeriodo S Periodo.personalizado hoje dataInicio dataFim = S := by
  unfold filtrarTransacoesPorPeriodo
  rcases h with h | h
  · subst h; simp
  · subst h; cases dataInicio <;> simp

/-- C8 (instance): only the start bound is present. -/
theorem C8_personalizado_sem_limite_witness :
    filtrarTransacoesPorPeriodo
        [⟨Ident.num 1, Tipo.saida, "a", 5, ⟨2024, 1, 5⟩, some "c", ""⟩]
        Periodo.personalizado ⟨2024, 6, 1⟩ (some ⟨2025, 1, 1⟩) none
      = [⟨Ident.num 1, Tipo.saida, "a", 5, ⟨2024, 1, 5⟩, some "c", ""⟩] :=
  C8_personalizado_sem_limite _ _ _ _ (Or.inr rfl)

/-! ## The scenario of the specification -/

/-- C9: for `S = [entrada 100 on 2024-01-05, saida 30 on 2024-01-05, saida 20 on 2024-02-01]`
(whatever the other fields), period `ano` and today 2024-06-01, the period filter keeps the
three rows, the summary is income 100, expense 50, balance 50, count 3, and the
running-balance series is the point of 2024-01-05 with 70 followed by the point of
2024-02-01 with 50. -/
theorem C9_cenario (t1 t2 t3 : Transacao) (dataInicio dataFim : Option Data)
    (h1 : t1.tipo = Tipo.entrada ∧ t1.valor = 100 ∧ t1.data = ⟨2024, 1, 5⟩)
    (h2 : t2.tipo = Tipo.saida ∧ t2.valor = 30 ∧ t2.data = ⟨2024, 1, 5⟩)
    (h3 : t3.tipo = Tipo.saida ∧ t3.valor = 20 ∧ t3.data = ⟨2024, 2, 1⟩) :
    filtrarTransacoesPorPeriodo [t1, t2, t3] Periodo.ano ⟨2024, 6, 1⟩ dataInicio dataFim
        = [t1, t2, t3]
    ∧ atualizarRelatorio [t1, t2, t3] Periodo.ano ⟨2024, 6, 1⟩ dataInicio dataFim
        = { entradas := 100, saidas := 50, saldo := 50, transacoesFiltradas := 3 }
    ∧ atualizarDashboard [t1, t2, t3]
        = { entradas := 100, saidas := 50, saldo := 50, totalTransacoes := 3 }
    ∧ atualizarGraficoEvolucao
          (filtrarTransacoesPorPeriodo [t1, t2, t3] Periodo.ano ⟨2024, 6, 1⟩ dataInicio dataFim)
        = some { labels := [formatarData ⟨2024, 1, 5⟩, formatarData ⟨2024, 2, 1⟩],
                 data := [70, 50] } := by
  obtain ⟨a1, a2, a3⟩ := h1
  obtain ⟨b1, b2, b3⟩ := h2
  obtain ⟨c1, c2, c3⟩ := h3
  have hf : filtrarTransacoesPorPeriodo [t1, t2, t3] Periodo.ano ⟨2024, 6, 1⟩ dataInicio dataFim
      = [t1, t2, t3] := by
    simp [filtrarTransacoesPorPeriodo, Data.getFullYear, a3, b3, c3]
  have g1 : (Data.mk 2024 1 5).getTime = 1704412800000 := by decide
  have g2 : (Data.mk 2024 2 1).getTime = 1706745600000 := by decide
  have k1 : formatarData ⟨2024, 1, 5⟩ = "05/01/2024" := by decide
  have k2 : formatarData ⟨2024, 2, 1⟩ = "01/02/2024" := by decide
  have i1 : indiceDeArray "05/01/2024" = none := by decide
  have i2 : indiceDeArray "01/02/2024" = none := by decide
  refine ⟨hf, ?_, ?_, ?_⟩
  · simp [atualizarRelatorio, hf, a1, a2, b1, b2, c1, c2, numberOuZero]
  · simp [atualizarDashboard, calcularTotal, a1, a2, b1, b2, c1, c2]
  · rw [hf]
    simp [atualizarGraficoEvolucao, pontosEvolucao, ordenadas, passoEvolucao, a1, a2, a3, b1,
      b2, b3, c1, c2, c3, g1, g2, k1, k2, i1, i2, Objeto.get, Objeto.set, Objeto.keys,
      Objeto.values, Objeto.entradas]

/-- C9 (instance): the three rows with concrete ids, descriptions and categories. -/
theorem C9_cenario_witness :
    atualizarGraficoEvolucao
        (filtrarTransacoesPorPeriodo
          [⟨Ident.num 1, Tipo.entrada, "salario", 100, ⟨2024, 1, 5⟩, some "c1", ""⟩,
           ⟨Ident.num 2, Tipo.saida, "mercado", 30, ⟨2024, 1, 5⟩, some "c2", ""⟩,
           ⟨Ident.num 3, Tipo.saida, "padaria", 20, ⟨2024, 2, 1⟩, none, ""⟩]
          Periodo.ano ⟨2024, 6, 1⟩ none none)
      = some { labels := ["05/01/2024", "01/02/2024"], data := [70, 50] } :=
  (C9_cenario
    ⟨Ident.num 1, Tipo.entrada, "salario", 100, ⟨2024, 1, 5⟩, some "c1", ""⟩
    ⟨Ident.num 2, Tipo.saida, "mercado", 30, ⟨2024, 1, 5⟩, some "c2", ""⟩
    ⟨Ident.num 3, Tipo.saida, "padaria", 20, ⟨2024, 2, 1⟩, none, ""⟩
    none none ⟨rfl, rfl, rfl⟩ ⟨rfl, rfl, rfl⟩ ⟨rfl, rfl, rfl⟩).2.2.2.trans (by decide)

/-! ## Decimal numerals -/

theorem filterExcept_ok {α : Type} (p : α → Except ErroJS Bool) (q : α → Bool) (l : List α)
    (h : ∀ x ∈ l, p x = Except.ok (q x)) : filterExcept p l = Except.ok (l.filter q) := by
  induction l with
  | nil => rfl
  | cons x xs ih =>
    have hx := h x (List.mem_cons_self x xs)
    have hxs := ih (fun y hy => h y (List.mem_cons_of_mem x hy))
    simp only [filterExcept, hx, hxs, List.filter_cons]

theorem obterNomeCategoria_some (cats : Categorias) (id : String) (tipo : Tipo) :
    ∃ nome, obterNomeCategoria cats (some id) tipo = some nome := by
  unfold obterNomeCategoria
  split
  · exact ⟨_, rfl⟩
  · exact ⟨_, rfl⟩

theorem saldoAte_append_le (P : List Transacao) (t : Transacao) (d : Data)
    (h : Data.le t.data d) : saldoAte (P ++ [t]) d = saldoAte P d + valorComSinal t := by
  simp [saldoAte, List.filter_append, h]

/-- C11: `filtrarTransacoes` with the empty term returns its input list itself: the same rows
in the same order, nothing dropped. -/
theorem C11_termo_vazio (cats : Categorias) (S : List Transacao) :
    filtrarTransacoes cats S "" = Except.ok S := by
  unfold filtrarTransacoes
  rw [if_pos rfl]

theorem emBranco_ne_vazio (termo : String) (h : emBranco termo = true) : termo ≠ "" := by
  intro e
  rw [e] at h
  exact absurd h (by decide)

/-- C12 (as stated, refuted): the single-space term is blank, yet `filtrarTransacoes` drops the
row described `mercado` whose label is the unresolved id `c`; the empty term keeps it. -/
theorem C12_contraexemplo :
    emBranco " " = true
    ∧ filtrarTransacoes ⟨[], []⟩
        [⟨Ident.num 1, Tipo.saida, "mercado", 30, ⟨2024, 1, 5⟩, some "c", ""⟩] " "
      = Except.ok []
    ∧ filtrarTransacoes ⟨[], []⟩
        [⟨Ident.num 1, Tipo.saida, "mercado", 30, ⟨2024, 1, 5⟩, some "c", ""⟩] ""
      = Except.ok [⟨Ident.num 1, Tipo.saida, "mercado", 30, ⟨2024, 1, 5⟩, some "c", ""⟩] := by
  decide

/-- C12 (amended): a blank term is an ordinary search term. For every list whose rows all carry
a category id and every blank term, `filtrarTransacoes` keeps, in input order, exactly the rows
whose lower-cased description, amount string or lower-cased resolved label contains the term,
and it returns the list unchanged exactly when every row does. -/
theorem C12_termo_em_branco (cats : Categorias) (S : List Transacao) (termo : String)
    (hb : emBranco termo = true) (hc : ∀ t ∈ S, t.categoria ≠ none) :
    filtrarTransacoes cats S termo
        = Except.ok (S.filter (fun t =>
            includes (toLowerCase t.descricao) termo
            || includes (valorToString t.valor) termo
            || includes (toLowerCase ((obterNomeCategoria cats t.categoria t.tipo).getD "")) termo))
    ∧ (filtrarTransacoes cats S termo = Except.ok S ↔
        ∀ t ∈ S, (includes (toLowerCase t.descricao) termo
            || includes (valorToString t.valor) termo
            || includes (toLowerCase ((obterNomeCategoria cats t.categoria t.tipo).getD "")) termo)
          = true) := by
  have h1 : filtrarTransacoes cats S termo
      = Except.ok (S.filter (fun t =>
          includes (toLowerCase t.descricao) termo
          || includes (valorToString t.valor) termo
          || includes (toLowerCase ((obterNomeCategoria cats t.categoria t.tipo).getD "")) termo)) := by
    unfold filtrarTransacoes
    rw [if_neg (emBranco_ne_vazio termo hb)]
    apply filterExcept_ok
    intro t ht
    obtain ⟨id, hid⟩ := Option.ne_none_iff_exists'.1 (hc t ht)
    obtain ⟨nome, hn⟩ := obterNomeCategoria_some cats id t.tipo
    have hn2 : obterNomeCategoria cats t.categoria t.tipo = some nome := by rw [hid]; exact hn
    simp only [casaBusca, hn2, Option.getD_some]
  refine ⟨h1, ?_⟩
  rw [h1]
  constructor
  · intro h
    exact List.filter_eq_self.1 (Except.ok.inj h)
  · intro h
    rw [List.filter_eq_self.2 h]

/-- C12 (instance): the single-space term keeps the row described `pao de queijo` and drops
the row described `mercado`. -/
theorem C12_termo_em_branco_witness :
    filtrarTransacoes ⟨[], []⟩
        [⟨Ident.num 1, Tipo.saida, "mercado", 30, ⟨2024, 1, 5⟩, some "c", ""⟩,
         ⟨Ident.num 2, Tipo.saida, "pao de queijo", 9, ⟨2024, 1, 6⟩, some "c", ""⟩] " "
      = Except.ok [⟨Ident.num 2, Tipo.saida, "pao de queijo", 9, ⟨2024, 1, 6⟩, some "c", ""⟩] :=
  ((C12_termo_em_branco ⟨[], []⟩
      [⟨Ident.num 1, Tipo.saida, "mercado", 30, ⟨2024, 1, 5⟩, some "c", ""⟩,
       ⟨Ident.num 2, Tipo.saida, "pao de queijo", 9, ⟨2024, 1, 6⟩, some "c", ""⟩] " "
      (by decide) (by decide)).1).trans (by decide)

/-! ## Category labels -/

theorem obterNomeCategoria_achado (cats : Categorias) (id : Option String) (tipo : Tipo)
    (h : ∃ c ∈ cats.doTipo tipo, some c.id = id) :
    ∃ c ∈ cats.doTipo tipo, some c.id = id
      ∧ obterNomeCategoria cats id tipo = some (c.icone ++ " " ++ c.nome) := by
  unfold obterNomeCategoria
  cases hf : (cats.doTipo tipo).find? (fun c => decide (some c.id = id)) with
  | none =>
    obtain ⟨c, hc, hid⟩ := h
    have := List.find?_eq_none.1 hf c hc
    simp [hid] at this
  | some c2 =>
    refine ⟨c2, List.mem_of_find?_eq_some hf, ?_, rfl⟩
    have hp := List.find?_some hf
    simpa using hp

theorem obterNomeCategoria_ausente (cats : Categorias) (id : Option String) (tipo : Tipo)
    (h : ∀ c ∈ cats.doTipo tipo, some c.id ≠ id) : obterNomeCategoria cats id tipo = id := by
  unfold obterNomeCategoria
  have hf : (cats.doTipo tipo).find? (fun c => decide (some c.id = id)) = none := by
    apply List.find?_eq_none.2
    intro c hc
    simp [h c hc]
  rw [hf]

/-- C13: `obterNomeCategoria(id, tipo)` returns `icone nome` of the category with that id in
the partition of `tipo` when one is there (the one with that id when ids are unique in the
partition) and returns `id` unchanged otherwise; the lookup reads the partition of `tipo` only,
so an id found only in `saida` resolves to itself for `entrada`, and the other way round. -/
theorem C13_rotulo_por_tipo (cats : Categorias) (id : Option String) (tipo : Tipo) :
    ((∃ c ∈ cats.doTipo tipo, some c.id = id) →
        ∃ c ∈ cats.doTipo tipo, some c.id = id
          ∧ obterNomeCategoria cats id tipo = some (c.icone ++ " " ++ c.nome))
    ∧ (∀ c ∈ cats.doTipo tipo, some c.id = id →
        (∀ c2 ∈ cats.doTipo tipo, c2.id = c.id → c2 = c) →
        obterNomeCategoria cats id tipo = some (c.icone ++ " " ++ c.nome))
    ∧ ((∀ c ∈ cats.doTipo tipo, some c.id ≠ id) → obterNomeCategoria cats id tipo = id)
    ∧ ((∃ c ∈ cats.saida, some c.id = id) → (∀ c ∈ cats.entrada, some c.id ≠ id) →
        obterNomeCategoria cats id Tipo.entrada = id)
    ∧ ((∃ c ∈ cats.entrada, some c.id = id) → (∀ c ∈ cats.saida, some c.id ≠ id) →
        obterNomeCategoria cats id Tipo.saida = id) := by
  refine ⟨obterNomeCategoria_achado cats id tipo, ?_, obterNomeCategoria_ausente cats id tipo,
    ?_, ?_⟩
  · intro c hc hid huniq
    obtain ⟨c2, hc2, hid2, hr⟩ := obterNomeCategoria_achado cats id tipo ⟨c, hc, hid⟩
    have he : c2.id = c.id := Option.some.inj (hid2.trans hid.symm)
    rw [hr, huniq c2 hc2 he]
  · intro _ h
    exact obterNomeCategoria_ausente cats id Tipo.entrada h
  · intro _ h
    exact obterNomeCategoria_ausente cats id Tipo.saida h

/-- C13 (instance): the id `mercado` is a `saida` category only; it resolves to its label for
`saida` and to itself for `entrada`. -/
theorem C13_rotulo_por_tipo_witness :
    obterNomeCategoria ⟨[⟨"salario", "Renda", "R", false⟩], [⟨"mercado", "Compras", "M", true⟩]⟩
        (some "mercado") Tipo.saida = some "M Compras"
    ∧ obterNomeCategoria ⟨[⟨"salario", "Renda", "R", false⟩], [⟨"mercado", "Compras", "M", true⟩]⟩
        (some "mercado") Tipo.entrada = some "mercado" :=
  ⟨((C13_rotulo_por_tipo
        ⟨[⟨"salario", "Renda", "R", false⟩], [⟨"mercado", "Compras", "M", true⟩]⟩
        (some "mercado") Tipo.saida).2.1 ⟨"mercado", "Compras", "M", true⟩ (by decide) rfl
        (by decide)).trans (by decide),
   (C13_rotulo_por_tipo
        ⟨[⟨"salario", "Renda", "R", false⟩], [⟨"mercado", "Compras", "M", true⟩]⟩
        (some "mercado") Tipo.entrada).2.2.2.1 ⟨⟨"mercado", "Compras", "M", true⟩, by decide, rfl⟩
        (by decide)⟩

/-- C14 (the code at the failing input): for the `null` category id that `carregarDados`
stores, `obterNomeCategoria` returns `null`, which is not a text, and `filtrarTransacoes` throws
a `TypeError` on a row with that id, for either kind and any registry without that row. -/
theorem C14_categoria_nula :
    (∀ (cats : Categorias) (tipo : Tipo), obterNomeCategoria cats none tipo = none)
    ∧ filtrarTransacoes ⟨[], [⟨"mercado", "Compras", "M", true⟩]⟩
        [⟨Ident.str "1700000000000", Tipo.saida, "padaria", 20, ⟨2024, 2, 1⟩, none, ""⟩] "pad"
      = Except.error ErroJS.typeError := by
  refine ⟨?_, by decide⟩
  intro cats tipo
  apply obterNomeCategoria_ausente
  intro c _ h
  exact Option.noConfusion h

/-! ## Category deletion -/

theorem Categorias.doTipo_comTipo (c : Categorias) (tipo : Tipo) (l : List Categoria) :
    (c.comTipo tipo l).doTipo tipo = l := by
  cases tipo <;> rfl

theorem Categorias.doTipo_comTipo_outro (c : Categorias) (tipo outro : Tipo) (l : List Categoria)
    (h : outro ≠ tipo) : (c.comTipo tipo l).doTipo outro = c.doTipo outro := by
  cases tipo <;> cases outro <;> first | rfl | exact absurd rfl h

theorem any_categoria_iff (S : List Transacao) (id : String) :
    S.any (fun t => decide (t.categoria = some id)) = true ↔ ∃ t ∈ S, t.categoria = some id := by
  simp [List.any_eq_true]

theorem podeRemover_true_iff (cats : Categorias) (S : List Transacao) (id : String) (tipo : Tipo) :
    podeRemover cats S id tipo = true ↔
      ∃ c, (cats.doTipo tipo).find? (fun c => decide (c.id = id)) = some c
        ∧ c.customizada = true ∧ ∀ t ∈ S, t.categoria ≠ some id := by
  unfold podeRemover
  cases hf : (cats.doTipo tipo).find? (fun c => decide (c.id = id)) with
  | none => simp
  | some c =>
    cases hcust : c.customizada with
    | false => simp [hcust]
    | true =>
      by_cases hany : S.any (fun t => decide (t.categoria = some id)) = true
      · have hex := (any_categoria_iff S id).1 hany
        simp only [hcust, hany, Bool.not_true, Bool.false_eq_true, if_false, if_true, false_iff]
        rintro ⟨_, _, _, hno⟩
        obtain ⟨t, ht, he⟩ := hex
        exact hno t ht he
      · have hno : ∀ t ∈ S, t.categoria ≠ some id :=
          fun t ht he => hany ((any_categoria_iff S id).2 ⟨t, ht, he⟩)
        simp only [hcust, hany, Bool.not_true, Bool.false_eq_true, if_false, true_iff]
        exact ⟨c, rfl, hcust, hno⟩

theorem removerCategoria_eq (cats : Categorias) (S : List Transacao) (id : String) (tipo : Tipo)
    (confirmou : Bool) :
    removerCategoria cats S id tipo confirmou
      = if podeRemover cats S id tipo = true ∧ confirmou = true then
          cats.comTipo tipo ((cats.doTipo tipo).filter (fun c => decide (c.id ≠ id)))
        else cats := by
  unfold removerCategoria podeRemover
  cases (cats.doTipo tipo).find? (fun c => decide (c.id = id)) with
  | none => simp
  | some c =>
    cases hcust : c.customizada <;>
      cases hany : S.any (fun t => decide (t.categoria = some id)) <;>
      cases confirmou <;> simp [hcust, hany]

theorem podeRemover_referenciada (cats : Categorias) (S : List Transacao) (id : String)
    (tipo : Tipo) (t : Transacao) (ht : t ∈ S) (he : t.categoria = some id) :
    podeRemover cats S id tipo = false := by
  apply Bool.eq_false_iff.2
  intro hp
  obtain ⟨_, _, _, hno⟩ := (podeRemover_true_iff cats S id tipo).1 hp
  exact hno t ht he

/-- C15: the deletion guard of `removerCategoria` is false whenever the category found for the
id is not custom, whatever the transactions; false whenever some transaction, of either kind,
has that id as category; true when the category is custom and no transaction has that id; and
`removerCategoria` changes the registry only when the guard is true. -/
theorem C15_guarda_remocao (cats : Categorias) (S : List Transacao) (id : String) (tipo : Tipo) :
    (∀ c, (cats.doTipo tipo).find? (fun c => decide (c.id = id)) = some c →
        c.customizada = false → podeRemover cats S id tipo = false)
    ∧ (∀ t ∈ S, t.categoria = some id → podeRemover cats S id tipo = false)
    ∧ (∀ c, (cats.doTipo tipo).find? (fun c => decide (c.id = id)) = some c →
        c.customizada = true → (∀ t ∈ S, t.categoria ≠ some id) →
        podeRemover cats S id tipo = true)
    ∧ (podeRemover cats S id tipo = false →
        ∀ confirmou, removerCategoria cats S id tipo confirmou = cats)
    ∧ (podeRemover cats S id tipo = true →
        removerCategoria cats S id tipo true
          = cats.comTipo tipo ((cats.doTipo tipo).filter (fun c => decide (c.id ≠ id)))) := by
  refine ⟨?_, ?_, ?_, ?_, ?_⟩
  · intro c hf hcust
    apply Bool.eq_false_iff.2
    intro hp
    obtain ⟨c2, hf2, hc2, _⟩ := (podeRemover_true_iff cats S id tipo).1 hp
    rw [hf] at hf2
    rw [Option.some.inj hf2, hc2] at hcust
    exact Bool.noConfusion hcust
  · intro t ht he
    apply Bool.eq_false_iff.2
    intro hp
    obtain ⟨_, _, _, hno⟩ := (podeRemover_true_iff cats S id tipo).1 hp
    exact hno t ht he
  · intro c hf hcust hno
    exact (podeRemover_true_iff cats S id tipo).2 ⟨c, hf, hcust, hno⟩
  · intro hp confirmou
    rw [removerCategoria_eq, if_neg]
    rintro ⟨h, _⟩
    rw [hp] at h
    exact Bool.noConfusion h
  · intro hp
    rw [removerCategoria_eq, if_pos ⟨hp, rfl⟩]

/-- C15 (instance): a custom `saida` category referenced by an `entrada` row cannot be
removed. -/
theorem C15_guarda_remocao_witness :
    podeRemover ⟨[], [⟨"mercado", "Compras", "M", true⟩]⟩
        [⟨Ident.num 1, Tipo.entrada, "troco", 5, ⟨2024, 1, 5⟩, some "mercado", ""⟩]
        "mercado" Tipo.saida = false :=
  (C15_guarda_remocao ⟨[], [⟨"mercado", "Compras", "M", true⟩]⟩
      [⟨Ident.num 1, Tipo.entrada, "troco", 5, ⟨2024, 1, 5⟩, some "mercado", ""⟩]
      "mercado" Tipo.saida).2.1
    ⟨Ident.num 1, Tipo.entrada, "troco", 5, ⟨2024, 1, 5⟩, some "mercado", ""⟩ (by decide) rfl

/-! ## Deleting a transaction -/

theorem deletarTransacao_sucesso (S : List Transacao) (id : Ident) (sessao : Option String)
    (ha : autenticado sessao = true) :
    (deletarTransacao S id true sessao Resposta.sucesso).transacoes
      = S.filter (fun t => decide (t.id ≠ id)) := by
  simp [deletarTransacao, ha]

/-- C16: in a store where exactly one transaction `t0` has the custom category `c` as category,
the deletion guard for `c` is false; once a successful `deletarTransacao` has removed `t0`, the
guard is true and `removerCategoria` (confirmed by the user) takes `c` out of its partition,
keeps every category with another id in place and in order, and leaves the other partition
untouched. -/
theorem C16_remocao_apos_delete (cats : Categorias) (A B : List Transacao) (t0 : Transacao)
    (c : Categoria) (tipo : Tipo) (sessao : Option String)
    (hc : (cats.doTipo tipo).find? (fun x => decide (x.id = c.id)) = some c)
    (hcust : c.customizada = true)
    (href : t0.categoria = some c.id)
    (hout : ∀ t ∈ A ++ B, t.categoria ≠ some c.id)
    (ha : autenticado sessao = true) :
    podeRemover cats (A ++ t0 :: B) c.id tipo = false
    ∧ podeRemover cats
        (deletarTransacao (A ++ t0 :: B) t0.id true sessao Resposta.sucesso).transacoes
        c.id tipo = true
    ∧ removerCategoria cats
        (deletarTransacao (A ++ t0 :: B) t0.id true sessao Resposta.sucesso).transacoes
        c.id tipo true
      = cats.comTipo tipo ((cats.doTipo tipo).filter (fun x => decide (x.id ≠ c.id)))
    ∧ c ∉ (cats.comTipo tipo ((cats.doTipo tipo).filter (fun x => decide (x.id ≠ c.id)))).doTipo
        tipo
    ∧ (∀ x, x.id ≠ c.id →
        (x ∈ (cats.comTipo tipo
            ((cats.doTipo tipo).filter (fun x => decide (x.id ≠ c.id)))).doTipo tipo
          ↔ x ∈ cats.doTipo tipo))
    ∧ ∀ outro, outro ≠ tipo →
        (cats.comTipo tipo ((cats.doTipo tipo).filter (fun x => decide (x.id ≠ c.id)))).doTipo
          outro = cats.doTipo outro := by
  have h1 : podeRemover cats (A ++ t0 :: B) c.id tipo = false :=
    (podeRemover_referenciada cats (A ++ t0 :: B) c.id tipo t0 (by simp) href)
  have hresto : ∀ t ∈ (deletarTransacao (A ++ t0 :: B) t0.id true sessao
      Resposta.sucesso).transacoes, t.categoria ≠ some c.id := by
    intro t ht
    rw [deletarTransacao_sucesso _ _ _ ha, List.mem_filter] at ht
    obtain ⟨hm, hne⟩ := ht
    have hne2 : t.id ≠ t0.id := of_decide_eq_true hne
    apply hout t
    rcases List.mem_append.1 hm with h | h
    · exact List.mem_append_left _ h
    · rcases List.mem_cons.1 h with h | h
      · rw [h] at hne2; exact absurd rfl hne2
      · exact List.mem_append_right _ h
  have h2 := (podeRemover_true_iff cats _ c.id tipo).2 ⟨c, hc, hcust, hresto⟩
  refine ⟨h1, h2, ?_, ?_, ?_, ?_⟩
  · rw [removerCategoria_eq, if_pos ⟨h2, rfl⟩]
  · rw [Categorias.doTipo_comTipo]
    intro hm
    have := (List.mem_filter.1 hm).2
    simp at this
  · intro x hx
    rw [Categorias.doTipo_comTipo, List.mem_filter]
    constructor
    · exact fun h => h.1
    · exact fun h => ⟨h, decide_eq_true hx⟩
  · intro outro ho
    exact Categorias.doTipo_comTipo_outro cats tipo outro _ ho

/-- C16 (instance): the custom category `mercado` is referenced by the single row 2. -/
theorem C16_remocao_apos_delete_witness :
    podeRemover ⟨[⟨"salario", "Renda", "R", false⟩], [⟨"mercado", "Compras", "M", true⟩]⟩
        [⟨Ident.num 1, Tipo.entrada, "salario", 100, ⟨2024, 1, 5⟩, some "salario", ""⟩,
         ⟨Ident.num 2, Tipo.saida, "feira", 30, ⟨2024, 1, 5⟩, some "mercado", ""⟩]
        "mercado" Tipo.saida = false
    ∧ removerCategoria
        ⟨[⟨"salario", "Renda", "R", false⟩], [⟨"mercado", "Compras", "M", true⟩]⟩
        (deletarTransacao
          [⟨Ident.num 1, Tipo.entrada, "salario", 100, ⟨2024, 1, 5⟩, some "salario", ""⟩,
           ⟨Ident.num 2, Tipo.saida, "feira", 30, ⟨2024, 1, 5⟩, some "mercado", ""⟩]
          (Ident.num 2) true (some "a@b.c") Resposta.sucesso).transacoes
        "mercado" Tipo.saida true
      = ⟨[⟨"salario", "Renda", "R", false⟩], []⟩ :=
  ⟨(C16_remocao_apos_delete
      ⟨[⟨"salario", "Renda", "R", false⟩], [⟨"mercado", "Compras", "M", true⟩]⟩
      [⟨Ident.num 1, Tipo.entrada, "salario", 100, ⟨2024, 1, 5⟩, some "salario", ""⟩] []
      ⟨Ident.num 2, Tipo.saida, "feira", 30, ⟨2024, 1, 5⟩, some "mercado", ""⟩
      ⟨"mercado", "Compras", "M", true⟩ Tipo.saida (some "a@b.c")
      (by decide) rfl rfl (by decide) (by decide)).1,
   (C16_remocao_apos_delete
      ⟨[⟨"salario", "Renda", "R", false⟩], [⟨"mercado", "Compras", "M", true⟩]⟩
      [⟨Ident.num 1, Tipo.entrada, "salario", 100, ⟨2024, 1, 5⟩, some "salario", ""⟩] []
      ⟨Ident.num 2, Tipo.saida, "feira", 30, ⟨2024, 1, 5⟩, some "mercado", ""⟩
      ⟨"mercado", "Compras", "M", true⟩ Tipo.saida (some "a@b.c")
      (by decide) rfl rfl (by decide) (by decide)).2.2.1.trans (by decide)⟩

/-- C17: when the confirmation is declined, or the user is not authenticated, or the remote
round trip fails, `deletarTransacao` leaves the in-memory list exactly as it was. -/
theorem C17_delete_nao_otimista (S : List Transacao) (id : Ident) (confirmou : Bool)
    (sessao : Option String) (resposta : Resposta)
    (h : confirmou = false ∨ autenticado sessao = false ∨ resposta = Resposta.falha) :
    (deletarTransacao S id confirmou sessao resposta).transacoes = S := by
  unfold deletarTransacao
  cases confirmou <;> cases ha : autenticado sessao <;> cases resposta <;> simp_all

/-- C17 (instance): the round trip fails for an authenticated user who confirmed. -/
theorem C17_delete_nao_otimista_witness :
    (deletarTransacao cenario (Ident.num 2) true (some "a@b.c") Resposta.falha).transacoes
      = cenario :=
  C17_delete_nao_otimista cenario (Ident.num 2) true (some "a@b.c") Resposta.falha
    (Or.inr (Or.inr rfl))

/-- C19: with a non-empty description, a positive amount, a date and a category,
`adicionarTransacao` leaves the old list with the new row appended at the end, whether the
remote create succeeds or fails (and also when no request is sent for lack of a session); a
failed request only sets the error toast. -/
theorem C19_insercao_otimista (S : List Transacao) (tipo : Tipo) (form : FormularioTransacao)
    (valor : Int) (data : Data) (agora : Nat) (carimbo : String) (sessao : Option String)
    (hd : form.descricao ≠ "") (hv : form.valor = some valor) (hpos : 0 < valor)
    (hdt : form.data = some data) (hcat : form.categoria ≠ "") :
    ∀ resposta : Resposta,
      (adicionarTransacao S tipo form agora carimbo sessao resposta).transacoes
        = S ++ [{ id := Ident.num agora, tipo := tipo, descricao := form.descricao,
                  valor := valor, data := data, categoria := some form.categoria,
                  timestamp := carimbo }]
      ∧ (autenticado sessao = true →
          (adicionarTransacao S tipo form agora carimbo sessao resposta).toastErro
            = decide (resposta = Resposta.falha)) := by
  intro resposta
  have hv0 : ¬ valor = 0 := by omega
  unfold adicionarTransacao
  rw [hv, hdt]
  simp only [hd, hv0, hcat, or_self, if_false]
  cases ha : autenticado sessao <;> simp

/-- C19 (instance): a failed create keeps the appended row. -/
theorem C19_insercao_otimista_witness :
    (adicionarTransacao cenario Tipo.saida ⟨"cafe", some 7, some ⟨2024, 2, 3⟩, "c2"⟩ 4 "ts"
        (some "a@b.c") Resposta.falha).transacoes
      = cenario ++ [⟨Ident.num 4, Tipo.saida, "cafe", 7, ⟨2024, 2, 3⟩, some "c2", "ts"⟩] :=
  (C19_insercao_otimista cenario Tipo.saida ⟨"cafe", some 7, some ⟨2024, 2, 3⟩, "c2"⟩ 7
    ⟨2024, 2, 3⟩ 4 "ts" (some "a@b.c") (by decide) rfl (by decide) rfl (by decide)
    Resposta.falha).1

/-- C20: when the description, the amount (not a number), the date or the category is missing,
`adicionarTransacao` leaves the in-memory list unchanged and sends no request to the backing
store. -/
theorem C20_validacao_bloqueia (S : List Transacao) (tipo : Tipo) (form : FormularioTransacao)
    (agora : Nat) (carimbo : String) (sessao : Option String) (resposta : Resposta)
    (h : form.descricao = "" ∨ form.valor = none ∨ form.data = none ∨ form.categoria = "") :
    (adicionarTransacao S tipo form agora carimbo sessao resposta).transacoes = S
    ∧ (adicionarTransacao S tipo form agora carimbo sessao resposta).chamadas = []
    ∧ (adicionarTransacao S tipo form agora carimbo sessao resposta).toastErro = true := by
  unfold adicionarTransacao
  cases hv : form.valor with
  | none => simp
  | some v =>
    cases hdt : form.data with
    | none => simp
    | some d =>
      have h2 : form.descricao = "" ∨ form.categoria = "" := by
        rcases h with h | h | h | h
        · exact Or.inl h
        · rw [hv] at h; exact Option.noConfusion h
        · rw [hdt] at h; exact Option.noConfusion h
        · exact Or.inr h
      have h3 : form.descricao = "" ∨ v = 0 ∨ form.categoria = "" := by
        rcases h2 with h2 | h2
        · exact Or.inl h2
        · exact Or.inr (Or.inr h2)
      simp only [if_pos h3, and_self]

/-- C20 (instance): the amount field is not a number. -/
theorem C20_validacao_bloqueia_witness :
    (adicionarTransacao cenario Tipo.saida ⟨"cafe", none, some ⟨2024, 2, 3⟩, "c2"⟩ 4 "ts"
        (some "a@b.c") Resposta.sucesso).transacoes = cenario
    ∧ (adicionarTransacao cenario Tipo.saida ⟨"cafe", none, some ⟨2024, 2, 3⟩, "c2"⟩ 4 "ts"
        (some "a@b.c") Resposta.sucesso).chamadas = [] :=
  ⟨(C20_validacao_bloqueia cenario Tipo.saida ⟨"cafe", none, some ⟨2024, 2, 3⟩, "c2"⟩ 4 "ts"
      (some "a@b.c") Resposta.sucesso (Or.inr (Or.inl rfl))).1,
   (C20_validacao_bloqueia cenario Tipo.saida ⟨"cafe", none, some ⟨2024, 2, 3⟩, "c2"⟩ 4 "ts"
      (some "a@b.c") Resposta.sucesso (Or.inr (Or.inl rfl))).2.1⟩

/-! ## Amounts accepted by the mutators -/

theorem deletarTransacao_preserva_valor (S : List Transacao) (id : Ident) (confirmou : Bool)
    (sessao : Option String) (resposta : Resposta) (h : ∀ t ∈ S, 0 ≤ t.valor) :
    ∀ t ∈ (deletarTransacao S id confirmou sessao resposta).transacoes, 0 ≤ t.valor := by
  intro t ht
  apply h t
  unfold deletarTransacao at ht
  cases confirmou <;> cases ha : autenticado sessao <;> cases resposta <;>
    simp_all

/-- C22 (the code at the failing input): the scenario store holds no negative amount; after
`adicionarTransacao` with the amount -5, and after the edit of row 2 submitted with the
amount -30, the store holds a negative amount. -/
theorem C22_valor_negativo :
    (∀ t ∈ cenario, 0 ≤ t.valor)
    ∧ (adicionarTransacao cenario Tipo.saida ⟨"estorno", some (-5), some ⟨2024, 2, 3⟩, "c2"⟩ 4
        "ts" (some "a@b.c") Resposta.falha).transacoes
      = cenario ++ [⟨Ident.num 4, Tipo.saida, "estorno", -5, ⟨2024, 2, 3⟩, some "c2", "ts"⟩]
    ∧ editarTransacao cenario (Ident.num 2) ⟨"mercado", -30, ⟨2024, 1, 5⟩⟩
      = [⟨Ident.num 1, Tipo.entrada, "salario", 100, ⟨2024, 1, 5⟩, some "c1", ""⟩,
         ⟨Ident.num 2, Tipo.saida, "mercado", -30, ⟨2024, 1, 5⟩, some "c2", ""⟩,
         ⟨Ident.num 3, Tipo.saida, "padaria", 20, ⟨2024, 2, 1⟩, some "c2", ""⟩]
    ∧ ¬ (∀ t ∈ (adicionarTransacao cenario Tipo.saida
          ⟨"estorno", some (-5), some ⟨2024, 2, 3⟩, "c2"⟩ 4 "ts" (some "a@b.c")
          Resposta.falha).transacoes, 0 ≤ t.valor)
    ∧ ¬ (∀ t ∈ editarTransacao cenario (Ident.num 2) ⟨"mercado", -30, ⟨2024, 1, 5⟩⟩,
          0 ≤ t.valor) := by
  decide

/-! ## Editing a transaction -/

theorem editarTransacao_sem_id (S : List Transacao) (id : Ident) (form : FormularioEdicao)
    (h : ∀ t ∈ S, t.id ≠ id) : editarTransacao S id form = S := by
  induction S with
  | nil => rfl
  | cons t r ih =>
    have ht : ¬ t.id = id := h t (List.mem_cons_self t r)
    have hr := ih (fun x hx => h x (List.mem_cons_of_mem t hx))
    simp only [editarTransacao, if_neg ht, hr]

theorem editarTransacao_com_id (S : List Transacao) (id : Ident) (form : FormularioEdicao)
    (h : ∃ t ∈ S, t.id = id) :
    ∃ A t B, S = A ++ t :: B ∧ t.id = id ∧ (∀ a ∈ A, a.id ≠ id)
      ∧ editarTransacao S id form
        = A ++ { t with descricao := form.descricao, valor := form.valor, data := form.data }
            :: B := by
  induction S with
  | nil =>
    obtain ⟨t, ht, _⟩ := h
    exact absurd ht (List.not_mem_nil t)
  | cons x r ih =>
    by_cases hx : x.id = id
    · refine ⟨[], x, r, rfl, hx, fun a ha => absurd ha (List.not_mem_nil a), ?_⟩
      simp only [editarTransacao, if_pos hx, List.nil_append]
    · have hr : ∃ t ∈ r, t.id = id := by
        obtain ⟨t, ht, e⟩ := h
        rcases List.mem_cons.1 ht with h1 | h1
        · rw [h1] at e; exact absurd e hx
        · exact ⟨t, h1, e⟩
      obtain ⟨A, t, B, hS, hid, hA, he⟩ := ih hr
      refine ⟨x :: A, t, B, by rw [hS]; rfl, hid, ?_, ?_⟩
      · intro a ha
        rcases List.mem_cons.1 ha with h1 | h1
        · rw [h1]; exact hx
        · exact hA a h1
      · simp only [editarTransacao, if_neg hx, he, List.cons_append]

theorem editarTransacao_projecao {β : Type} (f : Transacao → β)
    (hf : ∀ (t : Transacao) (form : FormularioEdicao),
      f { t with descricao := form.descricao, valor := form.valor, data := form.data } = f t)
    (S : List Transacao) (id : Ident) (form : FormularioEdicao) :
    (editarTransacao S id form).map f = S.map f := by
  induction S with
  | nil => rfl
  | cons t r ih =>
    by_cases ht : t.id = id
    · simp only [editarTransacao, if_pos ht, List.map_cons, hf]
    · simp only [editarTransacao, if_neg ht, List.map_cons, ih]

theorem editarTransacao_outros (S : List Transacao) (id : Ident) (form : FormularioEdicao) :
    ∀ (i : Nat) (t : Transacao), S[i]? = some t → t.id ≠ id →
      (editarTransacao S id form)[i]? = some t := by
  induction S with
  | nil => intro i t h; simp at h
  | cons x r ih =>
    intro i t h hne
    by_cases hx : x.id = id
    · simp only [editarTransacao, if_pos hx]
      cases i with
      | zero =>
        simp only [List.getElem?_cons_zero, Option.some.injEq] at h
        rw [h] at hx
        exact absurd hx hne
      | succ k =>
        simp only [List.getElem?_cons_succ] at h ⊢
        exact h
    · simp only [editarTransacao, if_neg hx]
      cases i with
      | zero =>
        simp only [List.getElem?_cons_zero] at h ⊢
        exact h
      | succ k =>
        simp only [List.getElem?_cons_succ] at h ⊢
        exact ih k t h hne

/-- C23: the edit submitted through `editarTransacao` keeps the length of the store, the id,
kind, creation timestamp and category id of every row at its position, and every row with
another id at its position; it rewrites the description, amount and date of the first row with
the id only; and with no row of that id the store is unchanged. -/
theorem C23_edicao_moldura (S : List Transacao) (id : Ident) (form : FormularioEdicao) :
    (editarTransacao S id form).length = S.length
    ∧ (editarTransacao S id form).map (·.id) = S.map (·.id)
    ∧ (editarTransacao S id form).map (·.tipo) = S.map (·.tipo)
    ∧ (editarTransacao S id form).map (·.timestamp) = S.map (·.timestamp)
    ∧ (editarTransacao S id form).map (·.categoria) = S.map (·.categoria)
    ∧ (∀ (i : Nat) (t : Transacao), S[i]? = some t → t.id ≠ id →
        (editarTransacao S id form)[i]? = some t)
    ∧ ((∃ t ∈ S, t.id = id) →
        ∃ A t B, S = A ++ t :: B ∧ t.id = id ∧ (∀ a ∈ A, a.id ≠ id)
          ∧ editarTransacao S id form
            = A ++ { t with descricao := form.descricao, valor := form.valor,
                            data := form.data } :: B)
    ∧ ((∀ t ∈ S, t.id ≠ id) → editarTransacao S id form = S) := by
  have hid := editarTransacao_projecao (·.id) (fun _ _ => rfl) S id form
  refine ⟨?_, hid, editarTransacao_projecao (·.tipo) (fun _ _ => rfl) S id form,
    editarTransacao_projecao (·.timestamp) (fun _ _ => rfl) S id form,
    editarTransacao_projecao (·.categoria) (fun _ _ => rfl) S id form,
    editarTransacao_outros S id form, editarTransacao_com_id S id form,
    editarTransacao_sem_id S id form⟩
  have := congrArg List.length hid
  simpa using this

/-- C23 (instance): editing row 2 of the scenario rewrites its three fields only; an unknown
id changes nothing. -/
theorem C23_edicao_moldura_witness :
    editarTransacao cenario (Ident.num 2) ⟨"feira", 45, ⟨2024, 1, 7⟩⟩
      = [⟨Ident.num 1, Tipo.entrada, "salario", 100, ⟨2024, 1, 5⟩, some "c1", ""⟩,
         ⟨Ident.num 2, Tipo.saida, "feira", 45, ⟨2024, 1, 7⟩, some "c2", ""⟩,
         ⟨Ident.num 3, Tipo.saida, "padaria", 20, ⟨2024, 2, 1⟩, some "c2", ""⟩]
    ∧ editarTransacao cenario (Ident.num 9) ⟨"feira", 45, ⟨2024, 1, 7⟩⟩ = cenario :=
  ⟨by decide,
   (C23_edicao_moldura cenario (Ident.num 9) ⟨"feira", 45, ⟨2024, 1, 7⟩⟩).2.2.2.2.2.2.2
     (by decide)⟩

/-! ## Order of the lists on screen -/

/-- C24 (the code at the failing input): two `entrada` rows of the same date are added one
after the other; the list on screen shows the one added first before the one added last. -/
theorem C24_empate_por_insercao :
    (adicionarTransacao
        (adicionarTransacao [] Tipo.entrada ⟨"primeira", some 10, some ⟨2024, 1, 5⟩, "c1"⟩ 1
          "t1" (some "a@b.c") Resposta.sucesso).transacoes
        Tipo.entrada ⟨"segunda", some 20, some ⟨2024, 1, 5⟩, "c1"⟩ 2 "t2" (some "a@b.c")
        Resposta.sucesso).transacoes
      = [⟨Ident.num 1, Tipo.entrada, "primeira", 10, ⟨2024, 1, 5⟩, some "c1", "t1"⟩,
         ⟨Ident.num 2, Tipo.entrada, "segunda", 20, ⟨2024, 1, 5⟩, some "c1", "t2"⟩]
    ∧ atualizarListaEspecifica ⟨[], []⟩
        [⟨Ident.num 1, Tipo.entrada, "primeira", 10, ⟨2024, 1, 5⟩, some "c1", "t1"⟩,
         ⟨Ident.num 2, Tipo.entrada, "segunda", 20, ⟨2024, 1, 5⟩, some "c1", "t2"⟩]
        Tipo.entrada ""
      = Except.ok
        [⟨Ident.num 1, Tipo.entrada, "primeira", 10, ⟨2024, 1, 5⟩, some "c1", "t1"⟩,
         ⟨Ident.num 2, Tipo.entrada, "segunda", 20, ⟨2024, 1, 5⟩, some "c1", "t2"⟩] := by
  decide

/-! ## Order of the category labels -/

theorem numberOuZero_eq (v : Int) : numberOuZero v = v := by
  unfold numberOuZero
  split
  · rename_i h; exact h.symm
  · rfl

theorem atualizarRelatorio_totais (S : List Transacao) (periodo : Periodo) (hoje : Data)
    (dataInicio dataFim : Option Data) :
    (atualizarRelatorio S periodo hoje dataInicio dataFim).entradas
        = calcularTotal Tipo.entrada
            (filtrarTransacoesPorPeriodo S periodo hoje dataInicio dataFim)
    ∧ (atualizarRelatorio S periodo hoje dataInicio dataFim).saidas
        = calcularTotal Tipo.saida
            (filtrarTransacoesPorPeriodo S periodo hoje dataInicio dataFim)
    ∧ (atualizarRelatorio S periodo hoje dataInicio dataFim).saldo
        = calcularTotal Tipo.entrada
            (filtrarTransacoesPorPeriodo S periodo hoje dataInicio dataFim)
          - calcularTotal Tipo.saida
            (filtrarTransacoesPorPeriodo S periodo hoje dataInicio dataFim) := by
  simp only [atualizarRelatorio, calcularTotal, numberOuZero_eq, and_self]

/-- C29: for every store, period and today, the income, expense and balance totals that
`atualizarRelatorio` shows for the period-filtered rows are `calcularTotal` of those rows, and
whenever `exportarPDF` prints a report (the rows are not empty) it prints the same three
totals. -/
theorem C29_relatorio_igual_pdf (S : List Transacao) (periodo : Periodo) (hoje : Data)
    (dataInicio dataFim : Option Data) :
    (atualizarRelatorio S periodo hoje dataInicio dataFim).entradas
        = calcularTotal Tipo.entrada
            (filtrarTransacoesPorPeriodo S periodo hoje dataInicio dataFim)
    ∧ (atualizarRelatorio S periodo hoje dataInicio dataFim).saidas
        = calcularTotal Tipo.saida
            (filtrarTransacoesPorPeriodo S periodo hoje dataInicio dataFim)
    ∧ (∀ pdf, exportarPDF S periodo hoje dataInicio dataFim = some pdf →
        pdf.entradas = (atualizarRelatorio S periodo hoje dataInicio dataFim).entradas
        ∧ pdf.saidas = (atualizarRelatorio S periodo hoje dataInicio dataFim).saidas
        ∧ pdf.saldo = (atualizarRelatorio S periodo hoje dataInicio dataFim).saldo)
    ∧ ((exportarPDF S periodo hoje dataInicio dataFim).isSome = true
        ↔ filtrarTransacoesPorPeriodo S periodo hoje dataInicio dataFim ≠ []) := by
  obtain ⟨hent, hsai, hsal⟩ := atualizarRelatorio_totais S periodo hoje dataInicio dataFim
  refine ⟨hent, hsai, ?_, ?_⟩
  · intro pdf hp
    unfold exportarPDF at hp
    simp only [] at hp
    split at hp
    · exact absurd hp (by simp)
    · rw [← Option.some.inj hp, hent, hsai, hsal]
      exact ⟨rfl, rfl, rfl⟩
  · unfold exportarPDF
    simp only []
    split
    · rename_i h0
      simp [List.length_eq_zero.1 h0]
    · rename_i h0
      simp only [Option.isSome_some, true_iff]
      exact fun e => h0 (by rw [e]; rfl)

theorem percentGasto_exemplo : percentGasto 1 3 = some (333 / 10) := by
  norm_num [percentGasto, dividir, toFixed1]

theorem adicionarCategoria_falha (cats : Categorias) (nome : String) (tipo : Tipo) (agora : Nat)
    (sessao : Option String) (hn : nome ≠ "") (ha : autenticado sessao = true) :
    adicionarCategoria cats nome (some tipo) agora sessao Resposta.falha
      = { categorias := cats, chamouApi := true,
          mensagem := MensagemCategoria.salvaLocalmenteFalhaAoSincronizar } := by
  simp [adicionarCategoria, hn, ha]

/-- C28 (the code at the failing input): the category `Lazer` of kind `saida` is added by an
authenticated user and the remote create fails; the registry is left as it was, without the
new category, while the toast says it was saved locally. With a successful create the category
is in the `saida` partition. -/
theorem C28_falha_nao_salva :
    adicionarCategoria ⟨[], [⟨"mercado", "Compras", "M", true⟩]⟩ "Lazer" (some Tipo.saida) 17
        (some "a@b.c") Resposta.falha
      = { categorias := ⟨[], [⟨"mercado", "Compras", "M", true⟩]⟩, chamouApi := true,
          mensagem := MensagemCategoria.salvaLocalmenteFalhaAoSincronizar }
    ∧ adicionarCategoria ⟨[], [⟨"mercado", "Compras", "M", true⟩]⟩ "Lazer" (some Tipo.saida) 17
        (some "a@b.c") Resposta.sucesso
      = { categorias :=
            ⟨[], [⟨"mercado", "Compras", "M", true⟩, ⟨"lazer-17", "Lazer", "📌", true⟩]⟩,
          chamouApi := true, mensagem := MensagemCategoria.adicionadaComSucesso } := by
  decide

end CFM
